import Mathlib

/-!
Verification of the Wabbit data model and its source renderer
(src/rust/wabbit/src/model.rs) and of the recursion exercise
(src/exercises/src/recursion.rs), as a shallow embedding in Lean.
-/

namespace Wabbit

/-- Symbolic representation of all valid operators (enum Operator in model.rs). -/
inductive Operator where
  | PLUS
  | MINUS
  | TIMES
  | DIVIDE
  | LT
  | LE
  | GT
  | GE
  | EQ
  | NE
  deriving DecidableEq

/-- Parse tree nodes (enum Node in model.rs). The i32 payload of Integer is
modelled as Int (the renderer only formats it, no arithmetic happens) and the
f64 payload of Float as the Float type. -/
inductive Node where
  | Nil
  | Integer (val : Int)
  | Float (val : Float)
  | BinOp (op : Operator) (left : Node) (right : Node)
  | UnaryOp (op : Operator) (value : Node)
  | PrintStatement (expr : Node)
  | AssignmentStatement (location : Node) (expression : Node)
  | LoadLocation (loc : Node)
  | ConstDefinition (name : String) (dtype : String) (value : Node)
  | VarDefinition (name : String) (dtype : String) (value : Node)
  | IfStatement (test : Node) (consequence : Node) (alternative : Node)
  | WhileStatement (test : Node) (body : Node)
  | NamedLocation (name : String)
  | Pair (node1 : Node) (node2 : Node)

/-- Test used by the VarDefinition arm of to_source: the source checks the
initializer with a pattern test (model.rs line 219, if let Nil). -/
def Node.isNil : Node → Bool
  | .Nil => true
  | _ => false

/-- The text printed between the operands in the BinOp arm of to_source
(model.rs lines 184 to 195), one string per operator arm. Note that the GE
arm of the source prints a less-or-equal token (model.rs line 192). -/
def binOpText : Operator → String
  | .PLUS => " + "
  | .MINUS => " - "
  | .TIMES => " * "
  | .DIVIDE => " / "
  | .LT => " < "
  | .LE => " <= "
  | .GT => " > "
  | .GE => " <= "
  | .EQ => " == "
  | .NE => " != "

/-- The text printed before the operand in the UnaryOp arm of to_source
(model.rs lines 199 to 203): a sign for PLUS and MINUS, the empty string for
every other operator. -/
def unaryText : Operator → String
  | .PLUS => "+"
  | .MINUS => "-"
  | _ => ""

/-- The debugging renderer to_source (model.rs lines 173 to 261). The Rust
function prints its fragments to standard output; here the fragments are
concatenated, in print order, into the returned string. The catch-all arm of
the source (line 257) is unreachable because every variant is matched. -/
def to_source : Node → String
  | .Integer val => toString val
  | .Float val => toString val
  | .BinOp op left right => to_source left ++ binOpText op ++ to_source right
  | .UnaryOp op value => unaryText op ++ to_source value
  | .PrintStatement val => "print " ++ to_source val ++ ";\n"
  | .AssignmentStatement location expression =>
      to_source location ++ " = " ++ to_source expression ++ ";\n"
  | .VarDefinition name dtype value =>
      "var " ++ name ++ " " ++ dtype ++
        (if value.isNil then "" else " = " ++ to_source value) ++ ";\n"
  | .ConstDefinition name dtype value =>
      "const " ++ name ++ " " ++ dtype ++ " = " ++ to_source value ++ ";\n"
  | .NamedLocation name => name
  | .LoadLocation loc => to_source loc
  | .IfStatement test consequence alternative =>
      "if " ++ to_source test ++ " \x7b\n" ++ to_source consequence ++
        "\x7d else \x7b\n" ++ to_source alternative ++ "\x7d\n"
  | .WhileStatement test body =>
      "while " ++ to_source test ++ " \x7b\n" ++ to_source body ++ "\x7d\n"
  | .Pair node1 node2 => to_source node1 ++ to_source node2
  | .Nil => ""

end Wabbit

namespace Exercises

/-- maxval from recursion.rs. The source tests the slice length against one
and otherwise takes the maximum of x[0] and the recursive call on the tail;
on an empty slice the else branch indexes position 0 out of bounds and the
program panics, modelled here as none. -/
def maxval : List Int → Option Int
  | [] => none
  | [a] => some a
  | a :: b :: rest => (maxval (b :: rest)).map (fun m => max a m)

end Exercises

namespace Wabbit

/-- Claim C1, failing input: the renderer maps BinOp with the GE operator to
a less-or-equal token, so BinOp(GE, 1, 2) renders as "1 <= 2", which differs
from the "1 >= 2" the claim requires (model.rs line 192 prints " <= " in the
GE arm, a copy of the LE arm). -/
theorem C1_ge_renders_as_le :
    to_source (.BinOp .GE (.Integer 1) (.Integer 2)) = "1 <= 2" ∧
    ("1 <= 2" : String) ≠ "1 >= 2" := by
  exact ⟨rfl, by decide⟩

/-- Claim C2: UnaryOp with PLUS renders as a plus sign directly followed by
the operand, UnaryOp with MINUS as a minus sign directly followed by the
operand, and UnaryOp with any other operator renders exactly the operand
with an empty prefix. -/
theorem C2_unaryop_rendering (v : Node) :
    to_source (.UnaryOp .PLUS v) = "+" ++ to_source v ∧
    to_source (.UnaryOp .MINUS v) = "-" ++ to_source v ∧
    ∀ op : Operator, op ≠ .PLUS → op ≠ .MINUS →
      to_source (.UnaryOp op v) = to_source v := by
  refine ⟨rfl, rfl, ?_⟩
  intro op h1 h2
  cases op with
  | PLUS => exact absurd rfl h1
  | MINUS => exact absurd rfl h2
  | TIMES => exact String.empty_append _
  | DIVIDE => exact String.empty_append _
  | LT => exact String.empty_append _
  | LE => exact String.empty_append _
  | GT => exact String.empty_append _
  | GE => exact String.empty_append _
  | EQ => exact String.empty_append _
  | NE => exact String.empty_append _

/-- Witness for C2 at a concrete non-sign operator. -/
theorem C2_unaryop_rendering_witness :
    to_source (.UnaryOp .TIMES (.NamedLocation "x")) =
      to_source (.NamedLocation "x") :=
  (C2_unaryop_rendering (.NamedLocation "x")).2.2 .TIMES (by decide) (by decide)

/-- Claim C3: VarDefinition renders the var keyword, the name, the dtype,
then an initializer fragment exactly when the initializer is not Nil, then a
semicolon and a newline; in particular VarDefinition tau float Nil renders
to "var tau float;" followed by a newline. -/
theorem C3_vardefinition_rendering (name dtype : String) (value : Node) :
    to_source (.VarDefinition name dtype value) =
      "var " ++ name ++ " " ++ dtype ++
        (if value.isNil then "" else " = " ++ to_source value) ++ ";\n" ∧
    to_source (.VarDefinition "tau" "float" .Nil) = "var tau float;\n" := by
  exact ⟨rfl, by decide⟩

/-- Claim C4: ConstDefinition renders the const keyword, the name, the
dtype, an equals sign and the rendered initializer unconditionally, then a
semicolon and a newline; a Nil initializer contributes the empty string. -/
theorem C4_constdefinition_rendering (name dtype : String) (value : Node) :
    to_source (.ConstDefinition name dtype value) =
      "const " ++ name ++ " " ++ dtype ++ " = " ++ to_source value ++ ";\n" ∧
    to_source (.ConstDefinition name dtype .Nil) =
      "const " ++ name ++ " " ++ dtype ++ " = " ++ "" ++ ";\n" :=
  ⟨rfl, rfl⟩

/-- Claim C5: Nil renders to the empty string and Pair concatenates the
renderings of its two children with no separator, so a Nil-terminated pair
chain renders the concatenation of its elements in order. -/
theorem C5_pair_nil_rendering :
    to_source .Nil = "" ∧
    (∀ s rest : Node, to_source (.Pair s rest) = to_source s ++ to_source rest) ∧
    (∀ s : Node, to_source (.Pair s .Nil) = to_source s) ∧
    (∀ s1 s2 : Node,
      to_source (.Pair s1 (.Pair s2 .Nil)) = to_source s1 ++ to_source s2) := by
  refine ⟨rfl, fun s rest => rfl, fun s => ?_, fun s1 s2 => ?_⟩
  · show to_source s ++ "" = to_source s
    exact String.append_empty _
  · show to_source s1 ++ (to_source s2 ++ "") = to_source s1 ++ to_source s2
    rw [String.append_empty]

/-- Claim C6: IfStatement renders the if keyword, the test, an opening brace
block with the consequence, an else block with the alternative and a closing
brace, both branches always textually present; the scenario 4 tree renders
to the expected if-else text. -/
theorem C6_ifstatement_rendering (test consequence alternative : Node) :
    to_source (.IfStatement test consequence alternative) =
      "if " ++ to_source test ++ " \x7b\n" ++ to_source consequence ++
        "\x7d else \x7b\n" ++ to_source alternative ++ "\x7d\n" ∧
    to_source (.IfStatement
        (.BinOp .LT (.NamedLocation "a") (.NamedLocation "b"))
        (.Pair (.PrintStatement (.LoadLocation (.NamedLocation "a"))) .Nil)
        (.Pair (.PrintStatement (.LoadLocation (.NamedLocation "b"))) .Nil)) =
      "if a < b \x7b\nprint a;\n\x7d else \x7b\nprint b;\n\x7d\n" := by
  exact ⟨rfl, by decide⟩

/-- Claim C7: WhileStatement renders the while keyword, the test and a
single brace-delimited block containing the rendering of the body; a
Nil-terminated three statement chain as body appears inside the wrapper in
chain order. -/
theorem C7_whilestatement_rendering (test body : Node) :
    to_source (.WhileStatement test body) =
      "while " ++ to_source test ++ " \x7b\n" ++ to_source body ++ "\x7d\n" ∧
    ∀ s1 s2 s3 : Node,
      to_source (.WhileStatement test (.Pair s1 (.Pair s2 (.Pair s3 .Nil)))) =
        "while " ++ to_source test ++ " \x7b\n" ++
          (to_source s1 ++ to_source s2 ++ to_source s3) ++ "\x7d\n" := by
  refine ⟨rfl, fun s1 s2 s3 => ?_⟩
  show "while " ++ to_source test ++ " \x7b\n" ++
      (to_source s1 ++ (to_source s2 ++ (to_source s3 ++ ""))) ++ "\x7d\n" = _
  simp [String.append_empty, String.append_assoc]

/-- Claim C8: to_source is a total function, defined on every finite Node
tree with no failure outcome, including trees that break the structural
conventions such as a ConstDefinition with a Nil initializer or a BinOp used
as a statement. -/
theorem C8_to_source_total :
    (∀ n : Node, ∃ s : String, to_source n = s) ∧
    to_source (.ConstDefinition "x" "int" .Nil) = "const x int = ;\n" ∧
    to_source (.Pair (.BinOp .PLUS (.Integer 1) (.Integer 2)) .Nil) = "1 + 2" := by
  exact ⟨fun n => ⟨to_source n, rfl⟩, by decide, by decide⟩

/-- Claim C9: rendering is deterministic, a pure function of the tree
structure: equal trees render to identical strings. -/
theorem C9_to_source_deterministic (n1 n2 : Node) (h : n1 = n2) :
    to_source n1 = to_source n2 := by
  rw [h]

/-- Witness for C9 at a concrete tree. -/
theorem C9_to_source_deterministic_witness :
    to_source (.Integer 5) = to_source (.Integer 5) :=
  C9_to_source_deterministic (.Integer 5) (.Integer 5) rfl

end Wabbit

namespace Exercises

/-- Helper for C10: on any nonempty list, maxval returns an element of the
list that bounds every element from above. -/
theorem maxval_cons (a : Int) (rest : List Int) :
    ∃ m, maxval (a :: rest) = some m ∧ m ∈ a :: rest ∧ ∀ y ∈ a :: rest, y ≤ m := by
  induction rest generalizing a with
  | nil =>
    refine ⟨a, rfl, List.mem_cons_self a [], ?_⟩
    intro y hy
    rcases List.mem_cons.mp hy with rfl | h
    · exact le_refl _
    · cases h
  | cons b t ih =>
    obtain ⟨m, hm, hmem, hub⟩ := ih b
    refine ⟨max a m, ?_, ?_, ?_⟩
    · show (maxval (b :: t)).map (fun m => max a m) = some (max a m)
      rw [hm]
      rfl
    · rcases max_choice a m with h | h
      · rw [h]
        exact List.mem_cons_self a (b :: t)
      · rw [h]
        exact List.mem_cons_of_mem a hmem
    · intro y hy
      rcases List.mem_cons.mp hy with rfl | h
      · exact le_max_left _ _
      · exact le_trans (hub y h) (le_max_right a m)

/-- Claim C10: on every nonempty list of integers maxval returns an element
of the list greater than or equal to every element; on the empty list the
source indexes out of bounds and there is no result. -/
theorem C10_maxval_correct :
    (∀ x : List Int, x ≠ [] →
      ∃ m, maxval x = some m ∧ m ∈ x ∧ ∀ y ∈ x, y ≤ m) ∧
    maxval ([] : List Int) = none := by
  constructor
  · intro x hx
    match x with
    | [] => exact absurd rfl hx
    | a :: rest => exact maxval_cons a rest
  · rfl

/-- Witness for C10 on the list from the test in recursion.rs. -/
theorem C10_maxval_correct_witness :
    ∃ m, maxval [-7, 7, 0, 6] = some m ∧ m ∈ ([-7, 7, 0, 6] : List Int) ∧
      ∀ y ∈ ([-7, 7, 0, 6] : List Int), y ≤ m :=
  C10_maxval_correct.1 [-7, 7, 0, 6] (by decide)

end Exercises
